import Mathlib

/-!
Shallow embedding of the go-sharding core slice: the MySQL typed `Value`
codec (`mysql/types/value.go`), the builtin `None` sharding strategy, the
server-side initial handshake writer (`server` package), the SQL generation
entry point (`gen/sql_gen.go`), the limit rewriter (`rewriting/engine.go`)
and the deep session clone (`server` package).

Byte strings are modelled as `List Nat` (each element one byte), Go errors
as `Except String` or `Option`, and Go interface values as explicit sum
types.  Machine integers that matter (the 64-bit bounds of
`strconv.ParseInt`/`ParseUint`) are handled over `Nat`/`Int` with explicit
`2 ^ 63` / `2 ^ 64` bounds.
-/

/-- Bytes of an ASCII string (used only on pure-ASCII literals, where the
Lean code points coincide with the UTF-8 bytes). -/
def strBytes (s : String) : List Nat := s.toList.map Char.toNat

/-! ## MySqlType and its classification

Modelled from the spec: the `MySqlType` enum and the classification
predicates `IsSigned` / `IsUnsigned` / `IsFloat` / `IsQuoted` live in a
types file of the repository that is not under `src/`; the enum members
are the ones the spec lists (section 3) and the classes follow the spec
(section 4.1) and the Vitess convention the code family uses: `Year` is an
unsigned integral, and `Bit` is excluded from `IsQuoted` (the code treats
`Bit` through an explicit disjunct everywhere). -/

inductive MySqlType where
  | Null
  | Int8 | Int16 | Int24 | Int32 | Int64
  | Uint8 | Uint16 | Uint24 | Uint32 | Uint64
  | Float32 | Float64
  | Decimal
  | VarChar | VarBinary | Text | Blob
  | Bit
  | Date | Datetime | Timestamp | Time | Year
  | Enum | Set | Json
  | Expression
  | TypeTuple
deriving DecidableEq

/-- Modelled from the spec: signed integral types. -/
def IsSigned : MySqlType → Bool
  | MySqlType.Int8 | MySqlType.Int16 | MySqlType.Int24
  | MySqlType.Int32 | MySqlType.Int64 => true
  | _ => false

/-- Modelled from the spec: unsigned integral types (`Year` is unsigned in
the Vitess-style type flags the code family uses). -/
def IsUnsigned : MySqlType → Bool
  | MySqlType.Uint8 | MySqlType.Uint16 | MySqlType.Uint24
  | MySqlType.Uint32 | MySqlType.Uint64 | MySqlType.Year => true
  | _ => false

/-- Modelled from the spec: floating-point types. -/
def IsFloat : MySqlType → Bool
  | MySqlType.Float32 | MySqlType.Float64 => true
  | _ => false

/-- Modelled from the spec: SQL-quoted types (section 4.1 lists
VarChar/VarBinary/Text/Blob/Enum/Set/Date/Time/Datetime/Timestamp/Json;
`Bit` is handled by an explicit disjunct in the code, so it is not
`IsQuoted`). -/
def IsQuoted : MySqlType → Bool
  | MySqlType.VarChar | MySqlType.VarBinary | MySqlType.Text
  | MySqlType.Blob | MySqlType.Enum | MySqlType.Set
  | MySqlType.Date | MySqlType.Datetime | MySqlType.Timestamp
  | MySqlType.Time | MySqlType.Json => true
  | _ => false

/-! ## Go strconv model

Embedding of `strconv.ParseUint(s, 0, 64)` and `strconv.ParseInt(s, 0, 64)`
(the only call shapes `value.go` uses), over byte lists.  Base 0 means the
base is detected from the literal prefix (`0x`/`0X` hex, `0o`/`0O` octal,
`0b`/`0B` binary, a bare leading `0` octal, decimal otherwise) and digit
group separating underscores are accepted when well placed.  Both syntax
errors and range errors collapse to `none`: `value.go` only distinguishes
success from failure. -/

/-- Go `lower(c) = c | ('x' - 'X')`. -/
def goLower (c : Nat) : Nat := c ||| 32

/-- Digit value of a byte as Go decodes it: `0`-`9`, then letters
case-insensitively as 10..35; `none` for any other byte. -/
def goDigit (c : Nat) : Option Nat :=
  if 48 ≤ c ∧ c ≤ 57 then some (c - 48)
  else if 97 ≤ goLower c ∧ goLower c ≤ 122 then some (goLower c - 97 + 10)
  else none

/-- Base detection of `ParseUint` with base argument 0: returns the
detected base and the remaining digit bytes.  Go takes a two-byte prefix
only when at least one byte follows it (`len(s) >= 3`); a bare leading `0`
switches to octal and consumes the `0` only. -/
def baseAndDigits : List Nat → Nat × List Nat
  | 48 :: c :: rest =>
    if rest ≠ [] ∧ goLower c = 98 then (2, rest)
    else if rest ≠ [] ∧ goLower c = 111 then (8, rest)
    else if rest ≠ [] ∧ goLower c = 120 then (16, rest)
    else (8, c :: rest)
  | [48] => (8, [])
  | s => (10, s)

/-- The digit accumulation loop of `ParseUint`: underscores are skipped
(recording that one was seen), every other byte must be a digit below the
base.  The value is accumulated in `Nat`; the 64-bit range check is applied
by the caller (Go checks overflow inside the loop, but since the
accumulated value only grows, the final check rejects exactly the same
strings). -/
def digitsLoop (base : Nat) : List Nat → Nat → Bool → Option (Nat × Bool)
  | [], n, saw => some (n, saw)
  | c :: rest, n, saw =>
    if c = 95 then digitsLoop base rest n true
    else match goDigit c with
      | none => none
      | some d => if d ≥ base then none else digitsLoop base rest (n * base + d) saw

/-- State loop of Go `underscoreOK`: `saw` is the kind of the previous
character, encoded as Go encodes it (`94` = start, `48` = digit or base
prefix, `95` = underscore, `33` = other). -/
def underscoreLoop (hex : Bool) : List Nat → Nat → Bool
  | [], saw => saw ≠ 95
  | c :: rest, saw =>
    if (48 ≤ c ∧ c ≤ 57) ∨ (hex ∧ 97 ≤ goLower c ∧ goLower c ≤ 102) then
      underscoreLoop hex rest 48
    else if c = 95 then
      if saw ≠ 48 then false else underscoreLoop hex rest 95
    else if saw = 95 then false
    else underscoreLoop hex rest 33

/-- Go `underscoreOK(s)`: underscores may only separate successive digits
(the base prefix counting as a digit), after an optional sign. -/
def underscoreOK (s : List Nat) : Bool :=
  let s1 := match s with
    | c :: rest => if c = 45 ∨ c = 43 then rest else s
    | [] => s
  match s1 with
  | 48 :: c :: rest =>
    if goLower c = 98 ∨ goLower c = 111 ∨ goLower c = 120 then
      underscoreLoop (goLower c = 120) rest 48
    else underscoreLoop false s1 94
  | _ => underscoreLoop false s1 94

/-- Embedding of `strconv.ParseUint(s, 0, 64)`: `none` on both syntax and
range errors. -/
def goParseUint64Base0 (s : List Nat) : Option Nat :=
  match s with
  | [] => none
  | _ :: _ =>
    let bd := baseAndDigits s
    match digitsLoop bd.1 bd.2 0 false with
    | none => none
    | some (n, saw) =>
      if saw ∧ underscoreOK s = false then none
      else if n > 2 ^ 64 - 1 then none
      else some n

/-- Embedding of `strconv.ParseInt(s, 0, 64)`: optional sign, then
`ParseUint` on the rest, then the signed 64-bit range check. -/
def goParseInt64Base0 (s : List Nat) : Option Int :=
  match s with
  | [] => none
  | c :: rest =>
    let p : Bool × List Nat :=
      if c = 43 then (false, rest) else if c = 45 then (true, rest) else (false, s)
    match goParseUint64Base0 p.2 with
    | none => none
    | some un =>
      if p.1 = false ∧ un ≥ 2 ^ 63 then none
      else if p.1 = true ∧ un > 2 ^ 63 then none
      else some (if p.1 then -(un : Int) else (un : Int))

/-- Decimal bytes of a natural number, as Go `strconv.AppendUint(nil, v, 10)`
renders it. -/
def uintDecimalBytes (n : Nat) : List Nat := (Nat.toDigits 10 n).map Char.toNat

/-- Decimal bytes of an integer, as Go `strconv.AppendInt(nil, v, 10)`
renders it (`-` prefix for negative values). -/
def intDecimalBytes (i : Int) : List Nat :=
  if i < 0 then 45 :: uintDecimalBytes i.natAbs else uintDecimalBytes i.natAbs

/-! ## Value (`mysql/types/value.go`) -/

/-- `Value` represents a typed value: a type code plus raw bytes. -/
structure Value where
  ValueType : MySqlType
  Value : List Nat
deriving DecidableEq

/-- The `NULL` value: Go `Value{}` (zero type code `Null`, nil bytes). -/
def NULL : Value := ⟨MySqlType.Null, []⟩

/-- `DontEscape` marks a byte that `encodeBytesSQL` passes through. -/
def DontEscape : Nat := 255

/-- `MakeTrusted` builds a `Value` without validation; type `Null` always
yields the canonical `NULL`. -/
def MakeTrusted (typ : MySqlType) (val : List Nat) : Value :=
  if typ = MySqlType.Null then NULL else ⟨typ, val⟩

/-- `NewValue` validates `val` against `typ` and wraps it via `MakeTrusted`.
The float branch is parameterised by `parseFloat`, an abstraction of
`strconv.ParseFloat(string(val), 64)` (no claim exercises it; IEEE-754
parsing is kept abstract). -/
def NewValue (parseFloat : List Nat → Bool) (typ : MySqlType) (val : List Nat) :
    Except String Value :=
  if IsSigned typ then
    match goParseInt64Base0 val with
    | none => Except.error "parse int"
    | some _ => Except.ok (MakeTrusted typ val)
  else if IsUnsigned typ then
    match goParseUint64Base0 val with
    | none => Except.error "parse uint"
    | some _ => Except.ok (MakeTrusted typ val)
  else if IsFloat typ ∨ typ = MySqlType.Decimal then
    if parseFloat val then Except.ok (MakeTrusted typ val)
    else Except.error "parse float"
  else if IsQuoted typ ∨ typ = MySqlType.Bit ∨ typ = MySqlType.Null then
    Except.ok (MakeTrusted typ val)
  else Except.error "invalid type specified for MakeValue"

/-- `NewIntegral` builds an integral value from a string: `Int64` when the
string parses signed (preferred), else `Uint64` when it parses unsigned,
else an error; the stored bytes are re-rendered in decimal via
`strconv.AppendInt`/`AppendUint`. -/
def NewIntegral (val : List Nat) : Except String Value :=
  match goParseInt64Base0 val with
  | some signed => Except.ok (MakeTrusted MySqlType.Int64 (intDecimalBytes signed))
  | none =>
    match goParseUint64Base0 val with
    | none => Except.error "parse"
    | some unsigned =>
      Except.ok (MakeTrusted MySqlType.Uint64 (uintDecimalBytes unsigned))

/-- `encodeRef` is the Go escape map from `value.go`: byte to its escaped
replacement character. -/
def encodeRef : Nat → Option Nat
  | 0 => some 48
  | 39 => some 39
  | 34 => some 34
  | 8 => some 98
  | 10 => some 110
  | 13 => some 114
  | 9 => some 116
  | 26 => some 90
  | 92 => some 92
  | _ => none

/-- `SQLEncodeMap[b]`: the table the `init` function builds from
`encodeRef`, defaulting every other byte to `DontEscape`. -/
def SQLEncodeMap (b : Nat) : Nat :=
  match encodeRef b with
  | some t => t
  | none => DontEscape

/-- The body loop of `encodeBytesSQL`: each byte either passes through or
becomes a backslash followed by its mapped character. -/
def escapeBytes : List Nat → List Nat
  | [] => []
  | ch :: rest =>
    (if SQLEncodeMap ch = DontEscape then [ch] else [92, SQLEncodeMap ch]) ++ escapeBytes rest

/-- `encodeBytesSQL`: a single-quoted literal around the escaped bytes. -/
def encodeBytesSQL (val : List Nat) : List Nat :=
  39 :: escapeBytes val ++ [39]

/-- One byte of `encodeBytesSQLBits`: Go `fmt.Fprintf("%08b", ch)`,
eight binary digit characters, high bit first. -/
def byteBits (ch : Nat) : List Nat :=
  (List.range 8).map (fun i => if Nat.testBit ch (7 - i) then 49 else 48)

/-- `encodeBytesSQLBits`: a `b`-quoted binary literal. -/
def encodeBytesSQLBits (val : List Nat) : List Nat :=
  98 :: 39 :: (val.map byteBits).flatten ++ [39]

/-- `Value.EncodeSQL` written to an in-memory buffer: literal bytes of the
SQL rendering. -/
def EncodeSQL (v : Value) : List Nat :=
  if v.ValueType = MySqlType.Null then strBytes "null"
  else if IsQuoted v.ValueType then encodeBytesSQL v.Value
  else if v.ValueType = MySqlType.Bit then encodeBytesSQLBits v.Value
  else v.Value

/-- The per-byte escape rule exactly as the specification words it: the
nine listed bytes map to a backslash followed by their mapped character,
every other byte is emitted unchanged. -/
def specEscapeByte (b : Nat) : List Nat :=
  if b = 0 then [92, 48]
  else if b = 8 then [92, 98]
  else if b = 9 then [92, 116]
  else if b = 10 then [92, 110]
  else if b = 13 then [92, 114]
  else if b = 26 then [92, 90]
  else if b = 39 then [92, 39]
  else if b = 34 then [92, 34]
  else if b = 92 then [92, 92]
  else [b]

/-- The whole-string escape as the specification words it. -/
def specEscapeList : List Nat → List Nat
  | [] => []
  | b :: rest => specEscapeByte b ++ specEscapeList rest

/-! ## Go interface argument of `Value.Equals` -/

/-- Dynamic type of the `interface\x7b\x7d` argument Go passes to
`Value.Equals`: a pointer to `Value`, a `Value` stored by value, or any
other dynamic type. -/
inductive GoInterface where
  | ptrValue (v : Value)
  | byValue (v : Value)
  | goString (s : String)
  | goInt (n : Int)
  | goNil
deriving DecidableEq

/-- `Value.Equals`: the type assertion `value.(*Value)` succeeds only for
the pointer dynamic type; then type codes and bytes are compared. -/
def Equals (v : Value) (arg : GoInterface) : Bool :=
  match arg with
  | GoInterface.ptrValue vv =>
    decide (v.ValueType = vv.ValueType) && decide (v.Value = vv.Value)
  | _ => false

/-! ## Builtin None sharding strategy (`core` package source bundled with
`value.go`) -/

/-- Modelled from the spec: the per-table container of extracted sharding
values.  The `None` strategy ignores its content entirely, so only the
shape matters here. -/
structure ShardingValues where
  scalarValues : List (String × List Value)
  rangeValues : List (String × List (Value × Value))
deriving DecidableEq

/-- The `ShardingStrategy` interface: columns, the two support flags and
the `Shard` function (`sources` may be pruned; the Go signature takes a
`*ShardingValues`, modelled as `Option`). -/
structure ShardingStrategy where
  GetShardingColumns : List String
  IsScalarValueSupported : Bool
  IsRangeValueSupported : Bool
  Shard : List String → Option ShardingValues → Except String (List String)

/-- `NoneShardingStrategy`: the builtin `noneShardingStrategy` singleton. -/
def NoneShardingStrategy : ShardingStrategy :=
  { GetShardingColumns := []
    IsScalarValueSupported := false
    IsRangeValueSupported := false
    Shard := fun sources _ => Except.ok sources }

/-! ## Initial handshake writer (`server` package, `part_000`) -/

/-- Modelled from the spec: `mysql.ProtocolVersion` is the protocol
version byte 10 (the constant lives in the `mysql` package, not under
`src/`). -/
def ProtocolVersion : Nat := 10

/-- Modelled from the spec: `mysql.AUTH_CACHING_SHA2_PASSWORD` is the
default auth plugin name `caching_sha2_password` (constant of the `mysql`
package, not under `src/`). -/
def AUTH_CACHING_SHA2_PASSWORD : List Nat := strBytes "caching_sha2_password"

/-- Inputs of `writeInitialHandshake` that come from the connection and
from `mysql`/`server` package constants not under `src/`: the server
version string, the connection id, the 20-byte salt, `DefaultCapability`
and `DefaultCollationID`. -/
structure HandshakeParams where
  serverVersion : List Nat
  connectionId : Nat
  salt : List Nat
  capability : Nat
  collationId : Nat

/-- `writeInitialHandshake`: the exact byte sequence the function appends
to `data` before `WritePacket` — protocol version, null-terminated server
version, 4-byte little-endian connection id, first 8 salt bytes, a 0x00
filler, capability low 2 bytes, collation byte, 2 status bytes, capability
high 2 bytes, the auth-plugin-data length byte `8+12+1`, 10 reserved zero
bytes, the remaining salt bytes, a terminating 0x00, and the
null-terminated auth plugin name. -/
def writeInitialHandshake (p : HandshakeParams) : List Nat :=
  [ProtocolVersion]
  ++ p.serverVersion ++ [0]
  ++ [p.connectionId % 256, p.connectionId / 2 ^ 8 % 256,
      p.connectionId / 2 ^ 16 % 256, p.connectionId / 2 ^ 24 % 256]
  ++ p.salt.take 8
  ++ [0]
  ++ [p.capability % 256, p.capability / 2 ^ 8 % 256]
  ++ [p.collationId % 256]
  ++ [0, 0]
  ++ [p.capability / 2 ^ 16 % 256, p.capability / 2 ^ 24 % 256]
  ++ [8 + 12 + 1]
  ++ List.replicate 10 0
  ++ p.salt.drop 8
  ++ [0]
  ++ AUTH_CACHING_SHA2_PASSWORD
  ++ [0]

/-! ## SQL generation (`gen/sql_gen.go`) -/

/-- Modelled from the spec: a bind variable carries a MySQL type and a
value (scalar bytes); the `types.BindVariable` definition is not under
`src/` and only its identity matters here. -/
structure BindVariable where
  typ : MySqlType
  value : List Nat
deriving DecidableEq

/-- `BindVariable.Clone` — modelled from the spec: a deep value copy. -/
def BindVariable.Clone (b : BindVariable) : BindVariable :=
  ⟨b.typ, b.value⟩

/-- `ScatterCommand`: one (data source, sql, bind variables) tuple. -/
structure ScatterCommand where
  DataSource : String
  SqlCommand : String
  Vars : List BindVariable
deriving DecidableEq

/-- The `Usage` values of `SqlGenResult`. -/
inductive SqlGenUsage where
  | UsageRaw
  | UsageShard
deriving DecidableEq

/-- `SqlGenResult`: usage plus the scatter commands. -/
structure SqlGenResult where
  Usage : SqlGenUsage
  Commands : List ScatterCommand
deriving DecidableEq

/-- One cursor position of the generation runtime: the current data source
(`runtime.currentDb`) and the current bind-variable snapshot
(`runtime.GetCurrentBindVariables()`). -/
structure CursorState where
  currentDb : String
  currentBindVariables : List BindVariable
deriving DecidableEq

/-- Modelled from the spec: the generation runtime (`genRuntime`,
constructed by `NewRuntime`, neither under `src/`) is an iterator over
destination coordinates; each successful `Next()` advance exposes the
current data source and bind variables.  It is modelled as the finite list
of cursor states the iterator traverses. -/
structure genRuntime where
  states : List CursorState
deriving DecidableEq

/-- Modelled from the spec: the explain result operations `sql_gen.go`
calls (`RestoreShardingValues`, `SetVars`, `RestoreSql`) and the runtime
constructor `NewRuntime` live in the `explain` and `gen` packages outside
`src/`; their behaviour is abstracted as function-valued fields.  Restored
sharding values are abstracted as an opaque list (`sql_gen.go` only tests
its emptiness). -/
structure SqlExplain where
  RestoreShardingValues : List BindVariable → Except String (List Nat)
  NewRuntime : String → List Nat → List BindVariable → Except String genRuntime
  SetVars : List BindVariable → Except String Unit
  RestoreSql : CursorState → Except String String

/-- The iteration loop of `gen`: per successful advance, restore the SQL
and append one `ScatterCommand` with the current data source, the restored
SQL and the current bind-variable snapshot; stop when the cursor is
exhausted; fail when a restore fails. -/
def genLoop (e : SqlExplain) : List CursorState → List ScatterCommand →
    Except String (List ScatterCommand)
  | [], acc => Except.ok acc
  | st :: rest, acc =>
    match e.RestoreSql st with
    | Except.error err => Except.error err
    | Except.ok sql =>
      genLoop e rest (acc ++ [⟨st.currentDb, sql, st.currentBindVariables⟩])

/-- `gen`: the result always carries usage `Shard`; commands come from the
iteration loop. -/
def gen (e : SqlExplain) (runtime : genRuntime) : Except String SqlGenResult :=
  match genLoop e runtime.states [] with
  | Except.error err => Except.error err
  | Except.ok cmds => Except.ok ⟨SqlGenUsage.UsageShard, cmds⟩

/-- `GenerateSql`: restore the sharding values; empty result set means
usage `Raw` (pass through); otherwise build the runtime, set the bind
variables, and run `gen`. -/
def GenerateSql (defaultDataSource : String) (expl : SqlExplain)
    (bindVariables : List BindVariable) : Except String SqlGenResult :=
  match expl.RestoreShardingValues bindVariables with
  | Except.error vErr => Except.error vErr
  | Except.ok values =>
    if values.length = 0 then
      Except.ok ⟨SqlGenUsage.UsageRaw, []⟩
    else
      match expl.NewRuntime defaultDataSource values bindVariables with
      | Except.error err => Except.error err
      | Except.ok runtime =>
        match expl.SetVars bindVariables with
        | Except.error err => Except.error err
        | Except.ok _ => gen expl runtime

/-! ## Limit rewrite (`rewriting/engine.go`) -/

/-- The limit lookup the explain context exposes
(`explainContext.LimitLookup()`); the `explain` package is not under
`src/`, so the lookup is modelled as plain data: the two flags
`RewriteLimit` reads plus the offset and count the writer consumes. -/
structure LimitLookup where
  hasLimit : Bool
  hasOffset : Bool
  offset : Nat
  count : Nat
deriving DecidableEq

/-- The slice of the explain context that the limit rewrite can observe:
the limit lookup and the statement's sharded tables (the latter lets the
claimed sharded-table condition be stated). -/
structure ExplainContext where
  limitLookup : LimitLookup
  shardedTables : List String
deriving DecidableEq

/-- Modelled from the spec: `LimitWriter` emits `LIMIT 0, offset+count`
for the per-shard SQL. -/
structure LimitWriter where
  offset : Nat
  count : Nat
deriving DecidableEq

/-- Modelled from the spec: `NewLimitWriter(explainContext)` builds the
writer emitting `LIMIT 0, (offset+count)` from the context's limit
lookup. -/
def NewLimitWriter (ctx : ExplainContext) : Except String LimitWriter :=
  Except.ok ⟨0, ctx.limitLookup.offset + ctx.limitLookup.count⟩

/-- Result of `RewriteLimit`: either the pass-through
`NoneRewriteLimitResult` or a recorded limit rewrite. -/
inductive RewriteLimitResult where
  | noneResult
  | limitResult (w : LimitWriter)
deriving DecidableEq

/-- `RewriteLimit`: record a limit rewrite exactly when the lookup has
both a limit and an offset; otherwise return the `None` result. -/
def RewriteLimit (ctx : ExplainContext) : Except String RewriteLimitResult :=
  if ctx.limitLookup.hasLimit && ctx.limitLookup.hasOffset then
    match NewLimitWriter ctx with
    | Except.error err => Except.error err
    | Except.ok writer => Except.ok (RewriteLimitResult.limitResult writer)
  else Except.ok RewriteLimitResult.noneResult

/-! ## Session clone (`server` package, `part_000`)

Go reference semantics is modelled with explicit allocation identifiers:
every map/slice/pointer field of a `Session` is a `Ref`, a payload value
tagged with the identifier of its allocation.  Two fields alias exactly
when their identifiers coincide.  `Session.Clone` threads an allocation
counter and gives every copied container a fresh identifier. -/

/-- A heap reference: an allocation identifier plus the referenced
value. -/
structure Ref (α : Type) where
  id : Nat
  val : α
deriving DecidableEq

/-- Modelled from the spec: `database.DbSession` (per-shard transaction
info, not under `src/`); only its value identity matters here. -/
structure DbSession where
  target : String
deriving DecidableEq

/-- `DbSession.Clone` — modelled from the spec: a deep value copy. -/
def DbSession.Clone (d : DbSession) : DbSession :=
  ⟨d.target⟩

/-- Modelled from the spec: `types.ExecuteOptions` (not under `src/`);
only its value identity matters here. -/
structure ExecuteOptions where
  tag : Nat
deriving DecidableEq

/-- The `Session` of the `server` package.  Map and slice fields are
`Ref`s to their payloads; `Options` is an optional pointer (`nil`
modelled as `none`); plain scalar fields are carried directly.
`TransactionMode` is kept as its numeric code. -/
structure Session where
  InTransaction : Bool
  Autocommit : Bool
  ShardSessions : Ref (List DbSession)
  Options : Option (Ref ExecuteOptions)
  TargetString : String
  SystemVariables : Ref (List (String × String))
  TransactionMode : Nat
  Warnings : Ref (List String)
  PreSessions : Ref (List DbSession)
  PostSessions : Ref (List DbSession)
  LastInsertId : Nat
  FoundRows : Nat
  UserDefinedVariables : Ref (List (String × Option BindVariable))
  RowCount : Int
  SavePoints : Ref (List String)
  InReservedConn : Bool
  LockSession : Option DbSession
  LastLockHeartbeat : Int
  DDLStrategy : String
  SessionUUID : String
  EnableSystemSettings : Bool

/-- `cloneDbSessions` — clone each element (nil handling collapses in the
value model). -/
def cloneDbSessions (source : List DbSession) : List DbSession :=
  source.map DbSession.Clone

/-- `Session.cloneUserDefinedVariables`: nil variables stay nil, others
are deep-cloned. -/
def cloneUserDefinedVariables (m : List (String × Option BindVariable)) :
    List (String × Option BindVariable) :=
  m.map (fun kv => (kv.1, kv.2.map BindVariable.Clone))

/-- Body of `Session.Clone` once `Options` has been dereferenced: every
map/slice field and the options struct are copied into fresh allocations
(identifiers `next`, `next+1`, …) and all scalar fields are carried
over. -/
def cloneBody (s : Session) (opts : Ref ExecuteOptions) (next : Nat) : Session :=
  { InTransaction := s.InTransaction
    Autocommit := s.Autocommit
    ShardSessions := ⟨next, cloneDbSessions s.ShardSessions.val⟩
    Options := some ⟨next + 1, opts.val⟩
    TargetString := s.TargetString
    SystemVariables := ⟨next + 2, s.SystemVariables.val⟩
    TransactionMode := s.TransactionMode
    Warnings := ⟨next + 3, s.Warnings.val⟩
    PreSessions := ⟨next + 4, cloneDbSessions s.PreSessions.val⟩
    PostSessions := ⟨next + 5, cloneDbSessions s.PostSessions.val⟩
    LastInsertId := s.LastInsertId
    FoundRows := s.FoundRows
    UserDefinedVariables := ⟨next + 6, cloneUserDefinedVariables s.UserDefinedVariables.val⟩
    RowCount := s.RowCount
    SavePoints := ⟨next + 7, s.SavePoints.val⟩
    InReservedConn := s.InReservedConn
    LockSession := s.LockSession.map DbSession.Clone
    LastLockHeartbeat := s.LastLockHeartbeat
    DDLStrategy := s.DDLStrategy
    SessionUUID := s.SessionUUID
    EnableSystemSettings := s.EnableSystemSettings }

/-- `Session.Clone`.  The first statement of the Go function dereferences
`s.Options` unconditionally, so a nil `Options` panics: modelled as
`none`.  Otherwise the clone body above is produced and the allocation
counter advances past the eight fresh allocations. -/
def SessionClone (s : Session) (next : Nat) : Option (Session × Nat) :=
  match s.Options with
  | none => none
  | some opts => some (cloneBody s opts next, next + 8)

/-- Allocation identifiers reachable from a session's container fields. -/
def sessionRefIds (s : Session) : List Nat :=
  [s.ShardSessions.id, s.SystemVariables.id, s.Warnings.id,
   s.PreSessions.id, s.PostSessions.id, s.UserDefinedVariables.id,
   s.SavePoints.id]
  ++ (match s.Options with | none => [] | some o => [o.id])

/-- Value-level agreement of two sessions: every scalar field equal and
every container field's payload equal (allocation identifiers
disregarded). -/
def sessionValueEq (a b : Session) : Prop :=
  a.InTransaction = b.InTransaction ∧
  a.Autocommit = b.Autocommit ∧
  a.ShardSessions.val = b.ShardSessions.val ∧
  (a.Options.map Ref.val) = (b.Options.map Ref.val) ∧
  a.TargetString = b.TargetString ∧
  a.SystemVariables.val = b.SystemVariables.val ∧
  a.TransactionMode = b.TransactionMode ∧
  a.Warnings.val = b.Warnings.val ∧
  a.PreSessions.val = b.PreSessions.val ∧
  a.PostSessions.val = b.PostSessions.val ∧
  a.LastInsertId = b.LastInsertId ∧
  a.FoundRows = b.FoundRows ∧
  a.UserDefinedVariables.val = b.UserDefinedVariables.val ∧
  a.RowCount = b.RowCount ∧
  a.SavePoints.val = b.SavePoints.val ∧
  a.InReservedConn = b.InReservedConn ∧
  a.LockSession = b.LockSession ∧
  a.LastLockHeartbeat = b.LastLockHeartbeat ∧
  a.DDLStrategy = b.DDLStrategy ∧
  a.SessionUUID = b.SessionUUID ∧
  a.EnableSystemSettings = b.EnableSystemSettings

/-! ## Concrete instances used by witnesses -/

/-- Agreement between one cursor state and one emitted scatter command:
same data source, the restored SQL, the current bind-variable snapshot. -/
def scatterMatches (e : SqlExplain) (st : CursorState) (cmd : ScatterCommand) : Prop :=
  cmd.DataSource = st.currentDb ∧
  e.RestoreSql st = Except.ok cmd.SqlCommand ∧
  cmd.Vars = st.currentBindVariables

/-- A concrete one-shard explain used to witness the generation theorem. -/
def explainOneShard : SqlExplain :=
  { RestoreShardingValues := fun _ => Except.ok [1]
    NewRuntime := fun _ _ _ => Except.ok ⟨[⟨"db0", []⟩]⟩
    SetVars := fun _ => Except.ok ()
    RestoreSql := fun _ => Except.ok "select 1" }

/-- The result the one-shard explain generates. -/
def oneShardResult : SqlGenResult :=
  ⟨SqlGenUsage.UsageShard, [⟨"db0", "select 1", []⟩]⟩

/-- Concrete handshake inputs used to witness the handshake theorem
(scenario 6 of the spec: version string, connection id 0x01020304, salt
bytes 0..19). -/
def handshakeP0 : HandshakeParams :=
  ⟨strBytes "5.7.0-sharding", 16909060, List.range 20, 2181036549, 33⟩

/-- A concrete bind variable used in the session witness. -/
def bv0 : BindVariable := ⟨MySqlType.Int64, [49]⟩

/-- A concrete session with non-nil options, reference ids 0..7. -/
def session0 : Session :=
  { InTransaction := true
    Autocommit := false
    ShardSessions := ⟨0, [⟨"shard0"⟩]⟩
    Options := some ⟨1, ⟨7⟩⟩
    TargetString := "ks"
    SystemVariables := ⟨2, [("a", "b")]⟩
    TransactionMode := 1
    Warnings := ⟨3, ["w"]⟩
    PreSessions := ⟨4, []⟩
    PostSessions := ⟨5, []⟩
    LastInsertId := 9
    FoundRows := 2
    UserDefinedVariables := ⟨6, [("x", some bv0), ("y", none)]⟩
    RowCount := 3
    SavePoints := ⟨7, ["sp1"]⟩
    InReservedConn := false
    LockSession := some ⟨"lockshard"⟩
    LastLockHeartbeat := 5
    DDLStrategy := "online"
    SessionUUID := "u"
    EnableSystemSettings := true }

/-- The same session with a nil options pointer. -/
def session0NoOptions : Session :=
  { session0 with Options := none }

/-! # Theorems -/

/-! ## Helper lemmas -/

/-- Each byte is escaped by `encodeBytesSQL` exactly as the spec's escape
table prescribes. -/
theorem escapeByte_eq_spec (ch : Nat) :
    (if SQLEncodeMap ch = DontEscape then [ch] else [92, SQLEncodeMap ch]) =
      specEscapeByte ch := by
  rcases eq_or_ne ch 0 with rfl | h0
  · decide
  rcases eq_or_ne ch 8 with rfl | h8
  · decide
  rcases eq_or_ne ch 9 with rfl | h9
  · decide
  rcases eq_or_ne ch 10 with rfl | h10
  · decide
  rcases eq_or_ne ch 13 with rfl | h13
  · decide
  rcases eq_or_ne ch 26 with rfl | h26
  · decide
  rcases eq_or_ne ch 34 with rfl | h34
  · decide
  rcases eq_or_ne ch 39 with rfl | h39
  · decide
  rcases eq_or_ne ch 92 with rfl | h92
  · decide
  have he : encodeRef ch = none := by
    unfold encodeRef
    split <;> simp_all
  simp [SQLEncodeMap, he, DontEscape, specEscapeByte, h0, h8, h9, h10, h13, h26, h34, h39, h92]

/-- The escaping loop agrees with the spec's whole-string escape. -/
theorem escapeBytes_eq_spec (s : List Nat) : escapeBytes s = specEscapeList s := by
  induction s with
  | nil => rfl
  | cons ch rest ih =>
    show (if SQLEncodeMap ch = DontEscape then [ch] else [92, SQLEncodeMap ch]) ++
        escapeBytes rest = _
    rw [escapeByte_eq_spec, ih]
    rfl

/-- A signed integral type is never `Null`. -/
theorem isSigned_ne_null (t : MySqlType) (h : IsSigned t = true) :
    t ≠ MySqlType.Null := by
  intro he
  subst he
  exact absurd h (by decide)

/-- An unsigned integral type is never `Null`. -/
theorem isUnsigned_ne_null (t : MySqlType) (h : IsUnsigned t = true) :
    t ≠ MySqlType.Null := by
  intro he
  subst he
  exact absurd h (by decide)

/-- An unsigned integral type is not signed. -/
theorem isUnsigned_not_signed (t : MySqlType) (h : IsUnsigned t = true) :
    IsSigned t = false := by
  cases t <;> first | rfl | exact absurd h (by decide)

/-- Success of the generation loop yields exactly one command per cursor
state, appended to the accumulator. -/
theorem genLoop_ok (e : SqlExplain) :
    ∀ (states : List CursorState) (acc cmds : List ScatterCommand),
      genLoop e states acc = Except.ok cmds →
      ∃ tail, cmds = acc ++ tail ∧ List.Forall₂ (scatterMatches e) states tail := by
  intro states
  induction states with
  | nil =>
    intro acc cmds h
    refine ⟨[], ?_, List.Forall₂.nil⟩
    have : acc = cmds := by simpa [genLoop] using h
    simp [this]
  | cons st rest ih =>
    intro acc cmds h
    cases hr : e.RestoreSql st with
    | error err => simp [genLoop, hr] at h
    | ok sql =>
      have h2 : genLoop e rest (acc ++ [⟨st.currentDb, sql, st.currentBindVariables⟩]) =
          Except.ok cmds := by
        simpa [genLoop, hr] using h
      obtain ⟨tail, htail, hforall⟩ := ih _ _ h2
      refine ⟨⟨st.currentDb, sql, st.currentBindVariables⟩ :: tail, ?_, ?_⟩
      · simp [htail]
      · exact List.Forall₂.cons ⟨rfl, hr, rfl⟩ hforall

/-! ## Claim theorems -/

/-- C1: `EncodeSQL` on a quoted-type value (e.g. `VarChar`) writes a
single-quoted literal in which exactly the bytes 0x00, 0x08, 0x09, 0x0A,
0x0D, 0x1A, single quote, double quote and backslash are emitted as a
backslash followed by their mapped character (`0 b t n r Z ' " \`) and
every other byte is emitted unchanged; in particular the `VarChar` value
with bytes `O'Brien\n` (`[79,39,66,114,105,101,110,10]`) encodes to
`'O\'Brien\n'` (`[39,79,92,39,66,114,105,101,110,92,110,39]`). -/
theorem encodeSQL_quoted_escape :
    (∀ (t : MySqlType) (s : List Nat), IsQuoted t = true →
      EncodeSQL ⟨t, s⟩ = 39 :: specEscapeList s ++ [39]) ∧
    EncodeSQL ⟨MySqlType.VarChar, [79, 39, 66, 114, 105, 101, 110, 10]⟩ =
      [39, 79, 92, 39, 66, 114, 105, 101, 110, 92, 110, 39] := by
  have hq : ∀ (t : MySqlType) (s : List Nat), IsQuoted t = true →
      EncodeSQL ⟨t, s⟩ = 39 :: specEscapeList s ++ [39] := by
    intro t s ht
    have hn : t ≠ MySqlType.Null := by
      intro he
      subst he
      exact absurd ht (by decide)
    simp [EncodeSQL, hn, ht, encodeBytesSQL, escapeBytes_eq_spec]
  exact ⟨hq, by decide⟩

/-- C1 witness: the quantified part applied at `VarChar` and a concrete
byte list containing an escapable byte. -/
theorem encodeSQL_quoted_escape_witness :
    EncodeSQL ⟨MySqlType.VarChar, [0, 65]⟩ = 39 :: specEscapeList [0, 65] ++ [39] :=
  encodeSQL_quoted_escape.1 MySqlType.VarChar [0, 65] rfl

/-- C2 counterexample: the hex literal bytes `0x10` parse in base 0 (to
16), `NewValue` with type `Int64` succeeds — but the resulting value's
bytes are the original bytes `0x10`, not the canonical decimal rendering
`16` of the parsed integer, contrary to the claim. -/
theorem newValue_not_canonical_counterexample :
    goParseInt64Base0 [48, 120, 49, 48] = some 16 ∧
    NewValue (fun _ => false) MySqlType.Int64 [48, 120, 49, 48] =
      Except.ok ⟨MySqlType.Int64, [48, 120, 49, 48]⟩ ∧
    [48, 120, 49, 48] ≠ intDecimalBytes 16 := by
  refine ⟨by decide, ?_, by decide⟩
  rfl

/-- C2 (amended): for every byte sequence that parses as an integer in
base 0, `NewValue` with a signed (resp. unsigned) integer type succeeds
and the resulting value's bytes are the input bytes unchanged (no decimal
re-canonicalisation takes place); bytes that do not parse yield an
error. -/
theorem newValue_integral_bytes_unchanged (parseFloat : List Nat → Bool)
    (typ : MySqlType) (val : List Nat) :
    (IsSigned typ = true →
      (∀ n, goParseInt64Base0 val = some n →
        NewValue parseFloat typ val = Except.ok ⟨typ, val⟩) ∧
      (goParseInt64Base0 val = none →
        NewValue parseFloat typ val = Except.error "parse int")) ∧
    (IsUnsigned typ = true →
      (∀ n, goParseUint64Base0 val = some n →
        NewValue parseFloat typ val = Except.ok ⟨typ, val⟩) ∧
      (goParseUint64Base0 val = none →
        NewValue parseFloat typ val = Except.error "parse uint")) := by
  constructor
  · intro hs
    have hne := isSigned_ne_null typ hs
    constructor
    · intro n hn
      simp [NewValue, hs, hn, MakeTrusted, hne]
    · intro hn
      simp [NewValue, hs, hn]
  · intro hu
    have hs := isUnsigned_not_signed typ hu
    have hne := isUnsigned_ne_null typ hu
    constructor
    · intro n hn
      simp [NewValue, hs, hu, hn, MakeTrusted, hne]
    · intro hn
      simp [NewValue, hs, hu, hn]

/-- C2 witness: the amended theorem applied at `Int64` with the decimal
bytes `7` (success keeping the bytes) and at `Uint64` with the
non-parsing bytes `-1` (error). -/
theorem newValue_integral_bytes_unchanged_witness :
    NewValue (fun _ => false) MySqlType.Int64 [55] =
      Except.ok ⟨MySqlType.Int64, [55]⟩ ∧
    NewValue (fun _ => false) MySqlType.Uint64 [45, 49] =
      Except.error "parse uint" :=
  ⟨((newValue_integral_bytes_unchanged (fun _ => false) MySqlType.Int64 [55]).1
      rfl).1 7 (by decide),
   ((newValue_integral_bytes_unchanged (fun _ => false) MySqlType.Uint64 [45, 49]).2
      rfl).2 (by decide)⟩

/-- C6: the builtin `None` sharding strategy returns every candidate
source list unchanged without error, exposes no sharding columns, and
supports neither scalar nor range values. -/
theorem noneShardingStrategy_spec :
    (∀ (sources : List String) (values : Option ShardingValues),
      NoneShardingStrategy.Shard sources values = Except.ok sources) ∧
    NoneShardingStrategy.GetShardingColumns = [] ∧
    NoneShardingStrategy.IsScalarValueSupported = false ∧
    NoneShardingStrategy.IsRangeValueSupported = false :=
  ⟨fun _ _ => rfl, rfl, rfl, rfl⟩

/-- C7: `NewIntegral` returns an `Int64` value whenever the input parses
as a signed 64-bit integer (so `Int64` is preferred), otherwise a
`Uint64` value when it parses as an unsigned 64-bit integer, and an error
when it fits neither. -/
theorem newIntegral_prefers_int64 (s : List Nat) :
    (∀ n, goParseInt64Base0 s = some n →
      NewIntegral s = Except.ok ⟨MySqlType.Int64, intDecimalBytes n⟩) ∧
    (goParseInt64Base0 s = none →
      ∀ u, goParseUint64Base0 s = some u →
        NewIntegral s = Except.ok ⟨MySqlType.Uint64, uintDecimalBytes u⟩) ∧
    (goParseInt64Base0 s = none → goParseUint64Base0 s = none →
      NewIntegral s = Except.error "parse") := by
  refine ⟨?_, ?_, ?_⟩
  · intro n hn
    simp [NewIntegral, hn, MakeTrusted]
  · intro hn u hu
    simp [NewIntegral, hn, hu, MakeTrusted]
  · intro hn hu
    simp [NewIntegral, hn, hu]

/-- C7 witness: `99` parses signed and yields `Int64`;
`18446744073709551615` overflows signed, parses unsigned, and yields
`Uint64`. -/
theorem newIntegral_prefers_int64_witness :
    NewIntegral [57, 57] = Except.ok ⟨MySqlType.Int64, intDecimalBytes 99⟩ ∧
    NewIntegral (strBytes "18446744073709551615") =
      Except.ok ⟨MySqlType.Uint64, uintDecimalBytes 18446744073709551615⟩ :=
  ⟨(newIntegral_prefers_int64 [57, 57]).1 99 (by decide),
   (newIntegral_prefers_int64 (strBytes "18446744073709551615")).2.1 (by decide)
     18446744073709551615 (by decide)⟩

/-- C8: constructing a value with type `Null` yields the canonical `NULL`
value with empty bytes regardless of the input bytes, through both
`MakeTrusted` and `NewValue`. -/
theorem nullType_always_null (parseFloat : List Nat → Bool) (b : List Nat) :
    MakeTrusted MySqlType.Null b = NULL ∧
    NewValue parseFloat MySqlType.Null b = Except.ok NULL ∧
    NULL.Value = [] :=
  ⟨rfl, rfl, rfl⟩

/-- C10: `Equals` returns true exactly when its argument's dynamic type is
pointer-to-`Value` with the same type code and byte-equal payload; any
other dynamic type — including a `Value` passed by value — yields false
even when type and bytes match. -/
theorem value_equals_requires_pointer (v : Value) (arg : GoInterface) :
    (Equals v arg = true ↔
      ∃ vv, arg = GoInterface.ptrValue vv ∧
        v.ValueType = vv.ValueType ∧ v.Value = vv.Value) ∧
    (∀ vv, arg = GoInterface.byValue vv → Equals v arg = false) := by
  constructor
  · cases arg <;> simp [Equals]
  · intro vv h
    subst h
    rfl

/-- C10 witness: a by-value `Value` with identical type and bytes compares
false; the same payload behind the pointer constructor compares true. -/
theorem value_equals_requires_pointer_witness :
    Equals ⟨MySqlType.VarChar, [1, 2]⟩
      (GoInterface.byValue ⟨MySqlType.VarChar, [1, 2]⟩) = false ∧
    Equals ⟨MySqlType.VarChar, [1, 2]⟩
      (GoInterface.ptrValue ⟨MySqlType.VarChar, [1, 2]⟩) = true :=
  ⟨(value_equals_requires_pointer ⟨MySqlType.VarChar, [1, 2]⟩
      (GoInterface.byValue ⟨MySqlType.VarChar, [1, 2]⟩)).2 _ rfl,
   (value_equals_requires_pointer ⟨MySqlType.VarChar, [1, 2]⟩
      (GoInterface.ptrValue ⟨MySqlType.VarChar, [1, 2]⟩)).1.mpr
     ⟨_, rfl, rfl, rfl⟩⟩

/-- C3: the initial handshake packet carries, after the capability high
bytes, the auth-plugin-data-length byte 21, then 10 zero bytes, then the
remaining 12 bytes of the 20-byte salt followed by a terminating 0x00,
and ends with the auth plugin name as a null-terminated string — the
default plugin being `caching_sha2_password`. -/
theorem writeInitialHandshake_auth_block (p : HandshakeParams)
    (hsalt : p.salt.length = 20) :
    ∃ pre,
      writeInitialHandshake p =
        pre ++ 21 :: (List.replicate 10 0 ++
          (p.salt.drop 8 ++ (0 :: (AUTH_CACHING_SHA2_PASSWORD ++ [0])))) ∧
      (p.salt.drop 8).length = 12 ∧
      AUTH_CACHING_SHA2_PASSWORD = strBytes "caching_sha2_password" := by
  refine ⟨[ProtocolVersion] ++ p.serverVersion ++ [0]
      ++ [p.connectionId % 256, p.connectionId / 2 ^ 8 % 256,
          p.connectionId / 2 ^ 16 % 256, p.connectionId / 2 ^ 24 % 256]
      ++ p.salt.take 8 ++ [0]
      ++ [p.capability % 256, p.capability / 2 ^ 8 % 256]
      ++ [p.collationId % 256] ++ [0, 0]
      ++ [p.capability / 2 ^ 16 % 256, p.capability / 2 ^ 24 % 256], ?_, ?_, rfl⟩
  · simp [writeInitialHandshake, List.append_assoc]
  · simp [hsalt]

/-- C3 witness: the handshake theorem at spec scenario 6's concrete
inputs (connection id 0x01020304, salt bytes 0..19). -/
theorem writeInitialHandshake_auth_block_witness :
    ∃ pre,
      writeInitialHandshake handshakeP0 =
        pre ++ 21 :: (List.replicate 10 0 ++
          (handshakeP0.salt.drop 8 ++ (0 :: (AUTH_CACHING_SHA2_PASSWORD ++ [0])))) ∧
      (handshakeP0.salt.drop 8).length = 12 ∧
      AUTH_CACHING_SHA2_PASSWORD = strBytes "caching_sha2_password" :=
  writeInitialHandshake_auth_block handshakeP0 (by decide)

/-- C4: a successful `GenerateSql` yields usage `Raw` (with no commands)
exactly when restoring the sharding values from the bind variables yields
the empty value set; otherwise usage is `Shard` and the commands pair up
one-to-one with the runtime's cursor advances — each command holding the
current data source, the restored SQL and the current bind-variable
snapshot. -/
theorem generateSql_usage_spec (ds : String) (e : SqlExplain)
    (bvs : List BindVariable) (r : SqlGenResult)
    (h : GenerateSql ds e bvs = Except.ok r) :
    (r.Usage = SqlGenUsage.UsageRaw ↔ e.RestoreShardingValues bvs = Except.ok []) ∧
    (r.Usage = SqlGenUsage.UsageRaw → r.Commands = []) ∧
    (r.Usage = SqlGenUsage.UsageShard →
      ∃ values runtime,
        e.RestoreShardingValues bvs = Except.ok values ∧ values ≠ [] ∧
        e.NewRuntime ds values bvs = Except.ok runtime ∧
        List.Forall₂ (scatterMatches e) runtime.states r.Commands) := by
  cases hv : e.RestoreShardingValues bvs with
  | error err => simp [GenerateSql, hv] at h
  | ok values =>
    by_cases hlen : values.length = 0
    · have hvals : values = [] := List.length_eq_zero.mp hlen
      subst hvals
      have hr : r = ⟨SqlGenUsage.UsageRaw, []⟩ := by
        have := h
        simp [GenerateSql, hv] at this
        exact this.symm
      subst hr
      refine ⟨by simp [hv], fun _ => rfl, fun husage => by simp at husage⟩
    · have hne : values ≠ [] := fun he => hlen (by simp [he])
      cases hrt : e.NewRuntime ds values bvs with
      | error err => simp [GenerateSql, hv, hlen, hrt] at h
      | ok runtime =>
        cases hsv : e.SetVars bvs with
        | error err => simp [GenerateSql, hv, hlen, hrt, hsv] at h
        | ok u =>
          have hg : gen e runtime = Except.ok r := by
            simpa [GenerateSql, hv, hlen, hrt, hsv] using h
          cases hloop : genLoop e runtime.states [] with
          | error err => simp [gen, hloop] at hg
          | ok cmds =>
            have hr : r = ⟨SqlGenUsage.UsageShard, cmds⟩ := by
              have := hg
              simp [gen, hloop] at this
              exact this.symm
            subst hr
            obtain ⟨tail, htail, hforall⟩ := genLoop_ok e runtime.states [] cmds hloop
            have htail2 : cmds = tail := by simpa using htail
            subst htail2
            refine ⟨?_, ?_, ?_⟩
            · constructor
              · intro hu
                simp at hu
              · intro hok
                have : values = [] := by
                  simpa using hok
                exact absurd this hne
            · intro hu
              simp at hu
            · intro _
              exact ⟨values, runtime, rfl, hne, hrt, hforall⟩

/-- C4 witness: the generation theorem at a concrete one-shard explain,
whose generated result is `Shard` with a single scatter command. -/
theorem generateSql_usage_spec_witness :
    (oneShardResult.Usage = SqlGenUsage.UsageRaw ↔
      explainOneShard.RestoreShardingValues [] = Except.ok []) ∧
    (oneShardResult.Usage = SqlGenUsage.UsageRaw → oneShardResult.Commands = []) ∧
    (oneShardResult.Usage = SqlGenUsage.UsageShard →
      ∃ values runtime,
        explainOneShard.RestoreShardingValues [] = Except.ok values ∧ values ≠ [] ∧
        explainOneShard.NewRuntime "ds" values [] = Except.ok runtime ∧
        List.Forall₂ (scatterMatches explainOneShard) runtime.states
          oneShardResult.Commands) :=
  generateSql_usage_spec "ds" explainOneShard [] oneShardResult rfl

/-- C5 counterexample: a context whose limit lookup has both a limit and
an offset but whose explain has zero sharded tables still gets a limit
rewrite recorded (`LIMIT 0, 10+5`), so the rewrite is not conditional on
the explain having at least one sharded table as the claim states. -/
theorem rewriteLimit_no_sharded_table_counterexample :
    (⟨⟨true, true, 10, 5⟩, []⟩ : ExplainContext).shardedTables = [] ∧
    RewriteLimit ⟨⟨true, true, 10, 5⟩, []⟩ =
      Except.ok (RewriteLimitResult.limitResult ⟨0, 15⟩) ∧
    RewriteLimit ⟨⟨true, true, 10, 5⟩, []⟩ ≠
      Except.ok RewriteLimitResult.noneResult := by
  refine ⟨rfl, rfl, ?_⟩
  intro h
  simp [RewriteLimit, NewLimitWriter] at h

/-- C5 (amended): `RewriteLimit` records a limit rewrite — whose writer
emits `LIMIT 0, (offset+count)` — exactly when the context's limit lookup
reports both a limit and an offset, independently of the explain's
sharded tables; when the limit has no offset the `None` rewrite result is
returned. -/
theorem rewriteLimit_flags_spec (ctx : ExplainContext) :
    (ctx.limitLookup.hasLimit = true ∧ ctx.limitLookup.hasOffset = true →
      RewriteLimit ctx =
        Except.ok (RewriteLimitResult.limitResult
          ⟨0, ctx.limitLookup.offset + ctx.limitLookup.count⟩)) ∧
    (¬(ctx.limitLookup.hasLimit = true ∧ ctx.limitLookup.hasOffset = true) →
      RewriteLimit ctx = Except.ok RewriteLimitResult.noneResult) := by
  constructor
  · rintro ⟨h1, h2⟩
    simp [RewriteLimit, NewLimitWriter, h1, h2]
  · intro h
    cases hL : ctx.limitLookup.hasLimit <;> cases hO : ctx.limitLookup.hasOffset <;>
      simp_all [RewriteLimit, NewLimitWriter]

/-- C5 witness: the amended theorem applied at a context with offset and
count (rewrite recorded) and at a context without an offset (pass
through). -/
theorem rewriteLimit_flags_spec_witness :
    RewriteLimit ⟨⟨true, true, 10, 5⟩, ["t_order"]⟩ =
      Except.ok (RewriteLimitResult.limitResult ⟨0, 15⟩) ∧
    RewriteLimit ⟨⟨true, false, 0, 7⟩, ["t_order"]⟩ =
      Except.ok RewriteLimitResult.noneResult :=
  ⟨(rewriteLimit_flags_spec ⟨⟨true, true, 10, 5⟩, ["t_order"]⟩).1 ⟨rfl, rfl⟩,
   (rewriteLimit_flags_spec ⟨⟨true, false, 0, 7⟩, ["t_order"]⟩).2 (by simp)⟩

/-- `DbSession.Clone` is the identity on values. -/
theorem dbSessionClone_id : DbSession.Clone = id :=
  funext fun _ => rfl

/-- `BindVariable.Clone` is the identity on values. -/
theorem bindVariableClone_id : BindVariable.Clone = id :=
  funext fun _ => rfl

/-- Cloning a `DbSession` list preserves its value. -/
theorem cloneDbSessions_eq (l : List DbSession) : cloneDbSessions l = l := by
  rw [cloneDbSessions, dbSessionClone_id, List.map_id]

/-- Cloning the user-defined variable map preserves its value. -/
theorem cloneUserDefinedVariables_eq (m : List (String × Option BindVariable)) :
    cloneUserDefinedVariables m = m := by
  rw [cloneUserDefinedVariables, bindVariableClone_id]
  simp [Option.map_id]

/-- Cloning the optional lock session preserves its value. -/
theorem lockSessionClone_eq (o : Option DbSession) : o.map DbSession.Clone = o := by
  rw [dbSessionClone_id, Option.map_id, id]

/-- C9: `Session.Clone` dereferences `Options` unconditionally, so a nil
`Options` pointer makes the clone undefined (modelled as `none`); with a
non-nil `Options`, the clone agrees with the original on every field's
value while every map/slice field and the options struct live in fresh
allocations — disjoint from all of the original's allocation ids whenever
the original's ids predate the allocation counter. -/
theorem sessionClone_spec (s : Session) (next : Nat) :
    (s.Options = none → SessionClone s next = none) ∧
    (∀ opts, s.Options = some opts →
      ∃ s2, SessionClone s next = some (s2, next + 8) ∧
        sessionValueEq s2 s ∧
        ((∀ r ∈ sessionRefIds s, r < next) →
          ∀ r2 ∈ sessionRefIds s2, r2 ∉ sessionRefIds s)) := by
  constructor
  · intro h
    simp [SessionClone, h]
  · intro opts hopts
    refine ⟨cloneBody s opts next, by simp [SessionClone, hopts], ?_, ?_⟩
    · refine ⟨rfl, rfl, cloneDbSessions_eq _, ?_, rfl, rfl, rfl, rfl,
        cloneDbSessions_eq _, cloneDbSessions_eq _, rfl, rfl,
        cloneUserDefinedVariables_eq _, rfl, rfl, rfl,
        lockSessionClone_eq _, rfl, rfl, rfl, rfl⟩
      simp [cloneBody, hopts]
    · intro hwf r2 hr2 hmem
      have hlt : r2 < next := hwf r2 hmem
      simp [sessionRefIds, cloneBody] at hr2
      omega

/-- C9 witness: the clone theorem at a concrete session with ids 0..7 and
counter 8, plus the nil-options case at the same session without
options. -/
theorem sessionClone_spec_witness :
    (∃ s2, SessionClone session0 8 = some (s2, 8 + 8) ∧
      sessionValueEq s2 session0 ∧
      ((∀ r ∈ sessionRefIds session0, r < 8) →
        ∀ r2 ∈ sessionRefIds s2, r2 ∉ sessionRefIds session0)) ∧
    SessionClone session0NoOptions 8 = none :=
  ⟨(sessionClone_spec session0 8).2 ⟨1, ⟨7⟩⟩ rfl,
   (sessionClone_spec session0NoOptions 8).1 rfl⟩
